import Mathlib

/-!
A shallow embedding of the browser chat widget in `app.js` (class
`ChatbotApp`), covering the parts the verified properties speak about:
the localStorage history store (`saveChatHistory`, `loadChatHistory`,
`clearChat`), message rendering (`addMessage`), input handling
(`sendMessage`), the typing indicator, the analytics renderer
(`renderAnalytics`) and the reconnect handlers for the `visibilitychange`
and `online` browser events.

Conventions of the embedding:
* DOM state (message list, input value, toast contents, style.display of
  the typing indicator) is carried in an explicit `AppState` record;
  every method of the class becomes a function `AppState → AppState`.
* `localStorage` is a map from string keys to stored strings.  A stored
  string is recorded either as the JSON value it parses to (`.json j`,
  the JSON text layer being a bijection between valid-JSON strings and
  JSON values) or as `.notJson`, a string `JSON.parse` throws on.
* `socket.emit('message', …)` appends the payload to an `emitted` list;
  the model has no send buffer, mirroring the code.
* `Date.now()` is read from a `now` field that the modelled operations
  never change, so timestamps are deterministic inside one state.
-/

namespace ChatWidget

/-- A JSON value: the image of `JSON.parse` on a valid-JSON string.
Objects are the already-parsed form, so keys are unique. -/
inductive Json where
  | null
  | bool (b : Bool)
  | num (n : Int)
  | str (s : String)
  | arr (xs : List Json)
  | obj (fields : List (String × Json))

/-- A string held in a localStorage slot: either valid JSON, recorded as
the value it parses to, or a string `JSON.parse` throws on. -/
inductive StoredVal where
  | json (j : Json)
  | notJson

/-- `localStorage`: a finite map from keys to stored strings, `none` when
the key is absent (`getItem` returns `null`). -/
abbrev Storage := String → Option StoredVal

def Storage.getItem (σ : Storage) (k : String) : Option StoredVal := σ k

def Storage.setItem (σ : Storage) (k : String) (v : StoredVal) : Storage :=
  fun q => if q = k then some v else σ q

def Storage.removeItem (σ : Storage) (k : String) : Storage :=
  fun q => if q = k then none else σ q

/-- A rendered message node: its CSS classes (`message ${sender}`) and the
text content of its `.message-bubble` child. -/
structure DisplayedMsg where
  classes : List String
  bubbleText : String
deriving DecidableEq, Repr

/-- One entry of the persisted history array:
`{sender, content, timestamp}`. -/
structure StoredMsg where
  sender : String
  content : String
  timestamp : Nat
deriving DecidableEq, Repr

/-- The payload of `socket.emit('message', {message, session_id, user_id})`. -/
structure EmitPayload where
  message : String
  session_id : String
  user_id : Nat
deriving DecidableEq, Repr

/-- The metadata object optionally passed to `addMessage`; `intent = none`
models an absent (`undefined`) property. -/
structure BotMeta where
  intent : Option String
  confidence : ℚ

/-- The widget state: session identity, connection and typing flags, the
DOM pieces the code reads or writes, localStorage, and the list of
payloads emitted on the socket. -/
structure AppState where
  sessionId : String
  userId : Nat
  isConnected : Bool
  isTyping : Bool
  /-- `typingIndicator.style.display`: `"flex"` when shown, `"none"` when hidden. -/
  typingDisplay : String
  /-- `messageInput.value`. -/
  messageInput : String
  /-- the `.message` children of `chatMessages`, in display order. -/
  messages : List DisplayedMsg
  storage : Storage
  /-- payloads passed to `socket.emit('message', …)`, in order. -/
  emitted : List EmitPayload
  sendButtonDisabled : Bool
  /-- the CSS status class set by `updateConnectionStatus`. -/
  connectionStatusClass : String
  /-- `some msg` when the error toast is showing with text `msg`. -/
  errorMessage : Option String
  /-- `some msg` when the success toast is showing with text `msg`. -/
  successMessage : Option String
  /-- the value `Date.now()` returns. -/
  now : Nat

/-- `showError`: set the error toast text and show the toast. -/
def showError (st : AppState) (msg : String) : AppState :=
  { st with errorMessage := some msg }

/-- `showSuccess`: set the success toast text and show the toast. -/
def showSuccess (st : AppState) (msg : String) : AppState :=
  { st with successMessage := some msg }

/-- The localStorage key `chat_history_${this.sessionId}` used by
`saveChatHistory`, `loadChatHistory` and `clearChat`. -/
def historyKey (sessionId : String) : String :=
  "chat_history_" ++ sessionId

/-- One step of `saveChatHistory`'s map over the rendered `.message`
nodes: sender is `'user'` iff the node's class list contains `user`,
content is the bubble's text, timestamp is `Date.now()`. -/
def storedOfDisplayed (now : Nat) (m : DisplayedMsg) : StoredMsg :=
  { sender := if "user" ∈ m.classes then "user" else "bot"
    content := m.bubbleText
    timestamp := now }

/-- `JSON.stringify` of one history entry. -/
def encodeMsg (m : StoredMsg) : Json :=
  .obj [("sender", .str m.sender), ("content", .str m.content),
        ("timestamp", .num (m.timestamp : Int))]

/-- `saveChatHistory`: serialize the current `.message` nodes and
overwrite the session's slot with the resulting JSON array. -/
def saveChatHistory (st : AppState) : AppState :=
  let serialized : StoredVal :=
    .json (.arr ((st.messages.map (storedOfDisplayed st.now)).map encodeMsg))
  { st with storage := st.storage.setItem (historyKey st.sessionId) serialized }

/-- The text content of the metadata block `addMessage` renders for a bot
message (`Intent: ${intent} (${Math.round(confidence*100)}% confidence)`;
the template's surrounding indentation whitespace is elided). -/
def metadataText (intent : String) (confidence : ℚ) : String :=
  "Intent: " ++ intent ++ " (" ++ toString (round (confidence * 100)) ++ "% confidence)"

/-- `addMessage(content, sender, metadata)`: append a `.message` node whose
class list is `["message", sender]` and whose bubble text is the content,
followed by the metadata block when `sender === 'bot'` and
`metadata.intent` is truthy; then persist via `saveChatHistory`. -/
def addMessage (st : AppState) (content sender : String) (metadata : Option BotMeta) :
    AppState :=
  let bubbleText :=
    match metadata with
    | some m =>
      if sender = "bot" then
        match m.intent with
        | some i => if i = "" then content else content ++ metadataText i m.confidence
        | none => content
      else content
    | none => content
  saveChatHistory
    { st with messages := st.messages ++ [{ classes := ["message", sender],
                                            bubbleText := bubbleText }] }

/-- The set of characters `String.prototype.trim` strips: the ECMAScript
WhiteSpace and LineTerminator code points. -/
def isJsWhitespace (c : Char) : Bool :=
  c = '\u0009' || c = '\u000A' || c = '\u000B' || c = '\u000C' || c = '\u000D' ||
  c = '\u0020' || c = '\u00A0' || c = '\u1680' ||
  ('\u2000' ≤ c && c ≤ '\u200A') ||
  c = '\u2028' || c = '\u2029' || c = '\u202F' || c = '\u205F' ||
  c = '\u3000' || c = '\uFEFF'

/-- `String.prototype.trim`: drop leading and trailing whitespace. -/
def jsTrim (s : String) : String :=
  ⟨((s.data.dropWhile isJsWhitespace).reverse.dropWhile isJsWhitespace).reverse⟩

/-- `sendMessage`: trim the input; an empty result or a disconnected
socket shows an error toast and returns without emitting; otherwise clear
the input, render the user message (which persists it), emit the payload
and disable the send button (the 2-second timer re-enabling it is an
asynchronous callback outside this step). -/
def sendMessage (st : AppState) : AppState :=
  let message := jsTrim st.messageInput
  if message = "" then
    showError st "Please enter a message"
  else if !st.isConnected then
    showError st "Not connected to server. Please wait..."
  else
    let st1 := { st with messageInput := "" }
    let st2 := addMessage st1 message "user" none
    let payload : EmitPayload :=
      { message := message, session_id := st2.sessionId, user_id := st2.userId }
    let st3 := { st2 with emitted := st2.emitted ++ [payload] }
    { st3 with sendButtonDisabled := true }

/-- `showTypingIndicator`: when not already typing, set the flag and show
the indicator. -/
def showTypingIndicator (st : AppState) : AppState :=
  if !st.isTyping then
    { st with isTyping := true, typingDisplay := "flex" }
  else st

/-- `hideTypingIndicator`: when typing, clear the flag and hide the
indicator. -/
def hideTypingIndicator (st : AppState) : AppState :=
  if st.isTyping then
    { st with isTyping := false, typingDisplay := "none" }
  else st

/-- `clearChat`: when the user confirms, remove every `.message` node,
delete the session's localStorage slot and show the success toast;
otherwise do nothing. -/
def clearChat (st : AppState) (confirmed : Bool) : AppState :=
  if confirmed then
    showSuccess
      { st with messages := []
                storage := st.storage.removeItem (historyKey st.sessionId) }
      "Chat history cleared"
  else st

mutual

/-- The ECMAScript string coercion of a parsed-JSON value, as a template
literal or a DOMString conversion performs it. -/
def jsString : Json → String
  | .null => "null"
  | .bool true => "true"
  | .bool false => "false"
  | .num n => toString n
  | .str s => s
  | .arr xs => String.intercalate "," (jsStringList xs)
  | .obj _ => "[object Object]"

/-- String coercions of a list of parsed-JSON values (`Array.prototype.join`). -/
def jsStringList : List Json → List String
  | [] => []
  | j :: rest => jsString j :: jsStringList rest

end

/-- Property access `j[k]` on a parsed-JSON value: `none` is `undefined`
(access on a primitive or a missing key); access on `null` throws and is
handled at the use site. -/
def jsField (j : Json) (k : String) : Option Json :=
  match j with
  | .obj fields => (fields.find? (fun p => p.1 = k)).map (fun p => p.2)
  | _ => none

/-- `msg.sender === 'welcome'`: strict equality against a string literal
holds only for that exact string value. -/
def isWelcomeSender : Option Json → Bool
  | some (.str s) => s = "welcome"
  | _ => false

/-- The string `msg.sender` contributes to `` `message ${sender}` ``:
template-literal coercion, `undefined` printing as `"undefined"`. -/
def senderString (v : Option Json) : String :=
  match v with
  | some j => jsString j
  | none => "undefined"

/-- The string `bubble.textContent = msg.content` stores: DOMString
conversion, `undefined` becoming `null` and hence the empty string. -/
def contentString (j : Json) : String :=
  match jsField j "content" with
  | some v => jsString v
  | none => ""

/-- `j === null`, for the elements of a parsed array. -/
def isNullJson : Json → Bool
  | .null => true
  | _ => false

/-- The `messages.forEach` loop of `loadChatHistory`: each element whose
sender is not `'welcome'` is re-rendered via `addMessage`; a `null`
element throws on property access, so the loop stops there and the
enclosing catch keeps the state built so far. -/
def loadLoop (st : AppState) : List Json → AppState
  | [] => st
  | j :: rest =>
    if isNullJson j then st
    else if isWelcomeSender (jsField j "sender") then loadLoop st rest
    else loadLoop (addMessage st (contentString j) (senderString (jsField j "sender")) none) rest

/-- `loadChatHistory`: read the session's slot; an absent slot, a string
`JSON.parse` throws on, or a parsed value without `forEach` leaves the
state unchanged (the catch only logs); a parsed array is replayed through
`addMessage`. -/
def loadChatHistory (st : AppState) : AppState :=
  match st.storage.getItem (historyKey st.sessionId) with
  | none => st
  | some .notJson => st
  | some (.json (.arr msgs)) => loadLoop st msgs
  | some (.json _) => st

/-- `updateConnectionStatus`: record the CSS status class the handler sets. -/
def updateConnectionStatus (st : AppState) (status : String) : AppState :=
  { st with connectionStatusClass := status }

/-- The external events the page-level and socket-level handlers react to. -/
inductive BrowserEvent where
  | visibilitychange (hidden : Bool)
  | online
  | offline
  | socketConnect
  | socketDisconnect
  | socketConnectError
deriving DecidableEq, Repr

/-- One dispatch of the page's event handlers; the `Bool` records whether
the handler re-invoked `connect` (the `visibilitychange` handler when the
page became visible and the `online` handler, each only if not already
connected; every other handler never does). -/
def handleBrowserEvent (st : AppState) : BrowserEvent → AppState × Bool
  | .visibilitychange hidden =>
    if hidden then (st, false)
    else if !st.isConnected then (st, true) else (st, false)
  | .online => if !st.isConnected then (st, true) else (st, false)
  | .offline => (st, false)
  | .socketConnect =>
    (updateConnectionStatus { st with isConnected := true } "connected", false)
  | .socketDisconnect =>
    (updateConnectionStatus { st with isConnected := false } "disconnected", false)
  | .socketConnectError =>
    (showError (updateConnectionStatus { st with isConnected := false } "disconnected")
      "Failed to connect to chatbot server", false)

/-- One rendered row of the analytics intent list. -/
structure IntentRow where
  intentName : String
  count : Nat
deriving DecidableEq, Repr

/-- `String.prototype.replace` with a plain one-character pattern: replace
only the first occurrence. -/
def replaceFirstChar (target repl : Char) : List Char → List Char
  | [] => []
  | c :: rest =>
    if c = target then repl :: rest else c :: replaceFirstChar target repl rest

/-- `intent.replace('_', ' ')`: the first underscore becomes a space. -/
def replaceFirstUnderscore (s : String) : String :=
  ⟨replaceFirstChar '_' ' ' s.data⟩

/-- The body of the analytics HTTP response; `none` models an absent
field (`undefined`, falsy under `||`). -/
structure AnalyticsData where
  total_conversations : Option Nat
  total_messages : Option Nat
  average_confidence : Option ℚ
  intent_distribution : Option (List (String × Nat))

/-- What `renderAnalytics` writes into the analytics panel. -/
structure AnalyticsView where
  totalConversations : Nat
  totalMessages : Nat
  averageConfidencePct : Int
  intentRows : List IntentRow

/-- The intent rows `renderAnalytics` builds: one `li` per entry of
`Object.entries(data.intent_distribution)`, in entry order, showing the
intent name (first underscore replaced by a space) and its count. -/
def intentRowsOf (dist : List (String × Nat)) : List IntentRow :=
  dist.map (fun p => { intentName := replaceFirstUnderscore p.1, count := p.2 })

/-- `renderAnalytics`: the cards (`|| 0` defaults) and the intent list. -/
def renderAnalytics (d : AnalyticsData) : AnalyticsView :=
  { totalConversations := d.total_conversations.getD 0
    totalMessages := d.total_messages.getD 0
    averageConfidencePct := round ((d.average_confidence.getD 0) * 100)
    intentRows := intentRowsOf (d.intent_distribution.getD []) }

/-- The state of a freshly constructed widget: empty chat, empty input,
flags down, toasts hidden, the given session id and localStorage. The
typing indicator starts hidden (the stylesheet's initial `display`). -/
def initialState (sessionId : String) (σ : Storage) : AppState :=
  { sessionId := sessionId
    userId := 1
    isConnected := false
    isTyping := false
    typingDisplay := "none"
    messageInput := ""
    messages := []
    storage := σ
    emitted := []
    sendButtonDisabled := false
    connectionStatusClass := ""
    errorMessage := none
    successMessage := none
    now := 0 }

/-- The empty localStorage. -/
def emptyStorage : Storage := fun _ => none

/-- Replay a sequence of `addMessage(content, sender)` calls (no metadata),
in order. -/
def applyCalls (st : AppState) : List (String × String) → AppState
  | [] => st
  | (content, sender) :: rest => applyCalls (addMessage st content sender none) rest

/-- The `(sender, content)` pairs the display shows, senders read back the
way `saveChatHistory` reads them (class list contains `user` or not). -/
def displayedPairs (st : AppState) : List (String × String) :=
  st.messages.map (fun m => ((if "user" ∈ m.classes then "user" else "bot"), m.bubbleText))

/-- The message nodes `loadChatHistory`'s loop appends for a parsed array,
stopping at a `null` element and skipping `'welcome'` senders. -/
def rowsOf : List Json → List DisplayedMsg
  | [] => []
  | j :: rest =>
    if isNullJson j then []
    else if isWelcomeSender (jsField j "sender") then rowsOf rest
    else { classes := ["message", senderString (jsField j "sender")],
           bubbleText := contentString j } :: rowsOf rest

/-- A call to `showTypingIndicator` or `hideTypingIndicator`. -/
inductive TypingCall where
  | showInd
  | hideInd
deriving DecidableEq, Repr

/-- Replay a sequence of typing-indicator calls. -/
def applyTypingCalls (st : AppState) : List TypingCall → AppState
  | [] => st
  | .showInd :: rest => applyTypingCalls (showTypingIndicator st) rest
  | .hideInd :: rest => applyTypingCalls (hideTypingIndicator st) rest

/-- The typing flag agrees with the indicator's visibility (`display:flex`
shows it, anything the code sets otherwise is `none`). -/
def typingConsistent (st : AppState) : Prop :=
  st.isTyping = true ↔ st.typingDisplay = "flex"

/-- A widget whose input holds only whitespace. -/
def wsInputState : AppState :=
  { initialState "sessionA" emptyStorage with messageInput := "   " }

/-- A disconnected widget with a non-empty input. -/
def discState : AppState :=
  { initialState "sessionB" emptyStorage with messageInput := "hello" }

/-- A widget whose persisted history slot holds a string that is not
valid JSON. -/
def corruptState : AppState :=
  initialState "sessionC"
    (Storage.setItem emptyStorage (historyKey "sessionC") StoredVal.notJson)

/-- A disconnected widget with a pending input, used to exhibit a
rejected send. -/
def frameState : AppState :=
  { initialState "sessionD" emptyStorage with messageInput := "hi" }

/-- A widget whose send button is disabled (as during the two-second
window after a successful send) and whose input is empty. -/
def disabledState : AppState :=
  { initialState "sessionE" emptyStorage with sendButtonDisabled := true }

/-- The analytics body of the concrete rendering example: an intent
distribution with two entries and no other fields. -/
def sampleAnalytics : AnalyticsData :=
  { total_conversations := none
    total_messages := none
    average_confidence := none
    intent_distribution := some [("greeting", 3), ("task_query", 1)] }

/- ------------------------------------------------------------------ -/
/- Helper lemmas                                                      -/
/- ------------------------------------------------------------------ -/

theorem jsTrim_of_all_whitespace {s : String}
    (h : ∀ c ∈ s.data, isJsWhitespace c = true) : jsTrim s = "" := by
  have h1 : s.data.dropWhile isJsWhitespace = [] :=
    List.dropWhile_eq_nil_iff.mpr h
  show (⟨((s.data.dropWhile isJsWhitespace).reverse.dropWhile isJsWhitespace).reverse⟩
      : String) = ""
  rw [h1]
  rfl

theorem addMessage_messages (st : AppState) (content sender : String) :
    (addMessage st content sender none).messages
      = st.messages ++ [{ classes := ["message", sender], bubbleText := content }] := rfl

theorem addMessage_sessionId (st : AppState) (content sender : String)
    (m : Option BotMeta) : (addMessage st content sender m).sessionId = st.sessionId := rfl

theorem addMessage_now (st : AppState) (content sender : String)
    (m : Option BotMeta) : (addMessage st content sender m).now = st.now := rfl

theorem applyCalls_messages (calls : List (String × String)) (st : AppState) :
    (applyCalls st calls).messages
      = st.messages
          ++ calls.map (fun p => { classes := ["message", p.2], bubbleText := p.1 }) := by
  induction calls generalizing st with
  | nil => simp [applyCalls]
  | cons p rest ih =>
    obtain ⟨c, s⟩ := p
    simp [applyCalls, ih, addMessage_messages]

theorem applyCalls_sessionId (calls : List (String × String)) (st : AppState) :
    (applyCalls st calls).sessionId = st.sessionId := by
  induction calls generalizing st with
  | nil => rfl
  | cons p rest ih =>
    obtain ⟨c, s⟩ := p
    simp [applyCalls, ih, addMessage_sessionId]

theorem applyCalls_now (calls : List (String × String)) (st : AppState) :
    (applyCalls st calls).now = st.now := by
  induction calls generalizing st with
  | nil => rfl
  | cons p rest ih =>
    obtain ⟨c, s⟩ := p
    simp [applyCalls, ih, addMessage_now]

theorem saveChatHistory_getItem_self (st : AppState) :
    (saveChatHistory st).storage.getItem (historyKey st.sessionId)
      = some (.json (.arr ((st.messages.map (storedOfDisplayed st.now)).map encodeMsg))) := by
  simp [saveChatHistory, Storage.getItem, Storage.setItem]

theorem isNullJson_encodeMsg (m : StoredMsg) : isNullJson (encodeMsg m) = false := rfl

theorem jsField_encodeMsg_sender (m : StoredMsg) :
    jsField (encodeMsg m) "sender" = some (.str m.sender) := rfl

theorem contentString_encodeMsg (m : StoredMsg) :
    contentString (encodeMsg m) = m.content := rfl

theorem senderString_encodeMsg (m : StoredMsg) :
    senderString (jsField (encodeMsg m) "sender") = m.sender := rfl

theorem isWelcomeSender_encodeMsg (m : StoredMsg) (h : m.sender ≠ "welcome") :
    isWelcomeSender (jsField (encodeMsg m) "sender") = false := by
  rw [jsField_encodeMsg_sender]
  simp [isWelcomeSender, h]

theorem rowsOf_encode (msgs : List StoredMsg) (h : ∀ m ∈ msgs, m.sender ≠ "welcome") :
    rowsOf (msgs.map encodeMsg)
      = msgs.map (fun m => { classes := ["message", m.sender], bubbleText := m.content }) := by
  induction msgs with
  | nil => simp [rowsOf]
  | cons m rest ih =>
    have hm : m.sender ≠ "welcome" := h m (by simp)
    have hrest : ∀ x ∈ rest, x.sender ≠ "welcome" := fun x hx => h x (by simp [hx])
    simp [rowsOf, isNullJson_encodeMsg, isWelcomeSender_encodeMsg m hm,
      senderString_encodeMsg, contentString_encodeMsg, ih hrest]

theorem loadLoop_messages (xs : List Json) (st : AppState) :
    (loadLoop st xs).messages = st.messages ++ rowsOf xs := by
  induction xs generalizing st with
  | nil => simp [loadLoop, rowsOf]
  | cons j rest ih =>
    by_cases hn : isNullJson j = true
    · simp [loadLoop, rowsOf, hn]
    · by_cases hw : isWelcomeSender (jsField j "sender") = true
      · simp [loadLoop, rowsOf, hn, hw, ih]
      · simp [loadLoop, rowsOf, hn, hw, ih, addMessage_messages]

theorem displayedPairs_of_messages (st st2 : AppState)
    (h : st.messages = st2.messages) : displayedPairs st = displayedPairs st2 := by
  simp [displayedPairs, h]

/- ------------------------------------------------------------------ -/
/- Claims                                                             -/
/- ------------------------------------------------------------------ -/

/-- C3: for every input string that is empty or consists only of
whitespace, `sendMessage` emits nothing on the socket and shows the
"Please enter a message" error toast. -/
theorem empty_message_rejected (st : AppState)
    (h : ∀ c ∈ st.messageInput.data, isJsWhitespace c = true) :
    (sendMessage st).emitted = st.emitted
    ∧ (sendMessage st).errorMessage = some "Please enter a message" := by
  have ht := jsTrim_of_all_whitespace h
  constructor <;> simp [sendMessage, ht, showError]

/-- Witness for C3: a three-space input is rejected with the toast and
nothing emitted. -/
theorem empty_message_rejected_witness :
    (∀ c ∈ wsInputState.messageInput.data, isJsWhitespace c = true)
    ∧ ((sendMessage wsInputState).emitted = wsInputState.emitted
       ∧ (sendMessage wsInputState).errorMessage = some "Please enter a message") :=
  ⟨by decide, empty_message_rejected wsInputState (by decide)⟩

/-- C4: for every non-empty (after trimming) message, `sendMessage` while
disconnected emits nothing, buffers nothing (display list and storage are
untouched), and shows the "Not connected to server" error toast. -/
theorem disconnected_send_rejected (st : AppState)
    (hmsg : jsTrim st.messageInput ≠ "") (hconn : st.isConnected = false) :
    (sendMessage st).emitted = st.emitted
    ∧ (sendMessage st).messages = st.messages
    ∧ (sendMessage st).storage = st.storage
    ∧ (sendMessage st).errorMessage = some "Not connected to server. Please wait..." := by
  refine ⟨?_, ?_, ?_, ?_⟩ <;> simp [sendMessage, hmsg, hconn, showError]

/-- Witness for C4: sending "hello" while disconnected is rejected. -/
theorem disconnected_send_rejected_witness :
    (jsTrim discState.messageInput ≠ "" ∧ discState.isConnected = false)
    ∧ ((sendMessage discState).emitted = discState.emitted
       ∧ (sendMessage discState).messages = discState.messages
       ∧ (sendMessage discState).storage = discState.storage
       ∧ (sendMessage discState).errorMessage
           = some "Not connected to server. Please wait...") :=
  ⟨⟨by decide, rfl⟩, disconnected_send_rejected discState (by decide) rfl⟩

/-- C5: when the persisted slot for the session is absent or holds a
string that is not valid JSON, `loadChatHistory` leaves the state exactly
as it was — in particular it renders no message, surfaces no toast and
does not throw (the failure is only logged). -/
theorem load_absent_or_corrupt (st : AppState)
    (h : st.storage.getItem (historyKey st.sessionId) = none
       ∨ st.storage.getItem (historyKey st.sessionId) = some StoredVal.notJson) :
    loadChatHistory st = st
    ∧ (loadChatHistory st).messages = st.messages
    ∧ (loadChatHistory st).errorMessage = st.errorMessage := by
  have heq : loadChatHistory st = st := by
    rcases h with h | h <;> simp [loadChatHistory, h]
  exact ⟨heq, by rw [heq], by rw [heq]⟩

/-- Witness for C5: a slot holding invalid JSON loads as no history. -/
theorem load_absent_or_corrupt_witness :
    (corruptState.storage.getItem (historyKey corruptState.sessionId)
        = some StoredVal.notJson)
    ∧ (loadChatHistory corruptState = corruptState
       ∧ (loadChatHistory corruptState).messages = corruptState.messages
       ∧ (loadChatHistory corruptState).errorMessage = corruptState.errorMessage) :=
  ⟨rfl, load_absent_or_corrupt corruptState (Or.inr rfl)⟩

/-- C6: confirming `clearChat` deletes the session's persistence slot, so
a subsequent `loadChatHistory` — on the cleared widget or on a fresh
widget with the same session id and the cleared storage — shows an empty
message list. -/
theorem clear_removes_slot (st : AppState) :
    (clearChat st true).storage.getItem (historyKey st.sessionId) = none
    ∧ (loadChatHistory (clearChat st true)).messages = []
    ∧ (loadChatHistory (initialState st.sessionId (clearChat st true).storage)).messages
        = [] := by
  have hkey : (clearChat st true).storage.getItem (historyKey st.sessionId) = none := by
    simp [clearChat, showSuccess, Storage.getItem, Storage.removeItem]
  have hr : (st.storage.removeItem (historyKey st.sessionId)).getItem
      (historyKey st.sessionId) = none := by
    simp [Storage.getItem, Storage.removeItem]
  refine ⟨hkey, ?_, ?_⟩
  · simp [loadChatHistory, clearChat, showSuccess, hr]
  · simp [loadChatHistory, initialState, clearChat, showSuccess, hr]

/-- C7: rendering an analytics response whose intent distribution is
`{"greeting": 3, "task_query": 1}` produces exactly the two intent rows
with counts 3 and 1, in entry order (underscores displayed as spaces). -/
theorem analytics_rows_concrete :
    (renderAnalytics sampleAnalytics).intentRows
      = [{ intentName := "greeting", count := 3 },
         { intentName := "task query", count := 1 }] := by
  decide

/-- C1: replaying any sequence of `addMessage` calls with senders `user`
or `bot` and arbitrary contents, saving, and loading the saved slot into
a fresh widget with the same session id reproduces the same ordered
(sender, content) pairs as the original display; timestamps are not
compared. -/
theorem saved_history_reloads (sid : String) (σ : Storage)
    (calls : List (String × String))
    (h : ∀ p ∈ calls, p.2 = "user" ∨ p.2 = "bot") :
    displayedPairs (loadChatHistory (initialState sid
        (saveChatHistory (applyCalls (initialState sid σ) calls)).storage))
      = displayedPairs (saveChatHistory (applyCalls (initialState sid σ) calls)) := by
  set st1 := applyCalls (initialState sid σ) calls with hst1def
  have hmsgs : st1.messages
      = calls.map (fun p =>
          ({ classes := ["message", p.2], bubbleText := p.1 } : DisplayedMsg)) := by
    have h0 := applyCalls_messages calls (initialState sid σ)
    simpa [initialState] using h0
  have hsid : st1.sessionId = sid := by
    have h0 := applyCalls_sessionId calls (initialState sid σ)
    simpa [initialState] using h0
  have hnow : st1.now = 0 := by
    have h0 := applyCalls_now calls (initialState sid σ)
    simpa [initialState] using h0
  have hstored : st1.messages.map (storedOfDisplayed st1.now)
      = calls.map (fun p =>
          ({ sender := p.2, content := p.1, timestamp := 0 } : StoredMsg)) := by
    rw [hmsgs, hnow, List.map_map]
    apply List.map_congr_left
    intro p hp
    rcases h p hp with h2 | h2 <;> simp [Function.comp, storedOfDisplayed, h2]
  have hget : (saveChatHistory st1).storage.getItem (historyKey sid)
      = some (.json (.arr ((calls.map (fun p =>
          ({ sender := p.2, content := p.1, timestamp := 0 } : StoredMsg))).map
            encodeMsg))) := by
    have h0 := saveChatHistory_getItem_self st1
    rw [hsid, hstored] at h0
    exact h0
  have hsenders : ∀ m ∈ calls.map (fun p =>
      ({ sender := p.2, content := p.1, timestamp := 0 } : StoredMsg)),
      m.sender ≠ "welcome" := by
    intro m hm
    rw [List.mem_map] at hm
    obtain ⟨p, hp, rfl⟩ := hm
    rcases h p hp with h2 | h2 <;> simp [h2]
  have hmsgs2 : (loadChatHistory (initialState sid
      (saveChatHistory st1).storage)).messages = st1.messages := by
    simp only [loadChatHistory, initialState, Storage.getItem] at hget ⊢
    rw [hget]
    rw [loadLoop_messages, rowsOf_encode _ hsenders, hmsgs, List.map_map]
    simp [Function.comp]
  exact displayedPairs_of_messages _ _ (by rw [hmsgs2]; rfl)

/-- Witness for C1 at a concrete two-message conversation. -/
theorem saved_history_reloads_witness :
    (∀ p ∈ [("hello", "user"), ("hi there", "bot")],
        p.2 = "user" ∨ p.2 = "bot")
    ∧ displayedPairs (loadChatHistory (initialState "s1"
        (saveChatHistory (applyCalls (initialState "s1" emptyStorage)
          [("hello", "user"), ("hi there", "bot")])).storage))
      = displayedPairs (saveChatHistory (applyCalls (initialState "s1" emptyStorage)
          [("hello", "user"), ("hi there", "bot")])) :=
  ⟨by decide,
   saved_history_reloads "s1" emptyStorage
     [("hello", "user"), ("hi there", "bot")] (by decide)⟩

/-- C2 (amended): every persisted-history operation of save, load and
clear touches only the slot `chat_history_<sessionId>` of its own
session: save writes that slot (with the serialized history) and no
other, clear deletes that slot and no other, what load renders depends
only on that slot's value, and distinct session ids have distinct slots,
so no slot is shared across sessions. -/
theorem history_slot_key_invariant :
    (∀ st : AppState,
      (saveChatHistory st).storage.getItem (historyKey st.sessionId)
        = some (.json (.arr ((st.messages.map (storedOfDisplayed st.now)).map encodeMsg)))
      ∧ ∀ k, k ≠ historyKey st.sessionId →
          (saveChatHistory st).storage.getItem k = st.storage.getItem k)
    ∧ (∀ st : AppState,
      (clearChat st true).storage.getItem (historyKey st.sessionId) = none
      ∧ ∀ k, k ≠ historyKey st.sessionId →
          (clearChat st true).storage.getItem k = st.storage.getItem k)
    ∧ (∀ (st : AppState) (σ2 : Storage),
        σ2.getItem (historyKey st.sessionId) = st.storage.getItem (historyKey st.sessionId) →
        (loadChatHistory { st with storage := σ2 }).messages
          = (loadChatHistory st).messages)
    ∧ (∀ s1 s2 : String, historyKey s1 = historyKey s2 → s1 = s2) := by
  refine ⟨fun st => ⟨saveChatHistory_getItem_self st, fun k hk => ?_⟩,
          fun st => ⟨?_, fun k hk => ?_⟩,
          fun st σ2 h => ?_,
          fun s1 s2 h => ?_⟩
  · simp [saveChatHistory, Storage.getItem, Storage.setItem, hk]
  · simp [clearChat, showSuccess, Storage.getItem, Storage.removeItem]
  · simp [clearChat, showSuccess, Storage.getItem, Storage.removeItem, hk]
  · have h2 : σ2 (historyKey st.sessionId) = st.storage (historyKey st.sessionId) := h
    cases hg : st.storage (historyKey st.sessionId) with
    | none => simp [loadChatHistory, Storage.getItem, h2, hg]
    | some v =>
      cases v with
      | notJson => simp [loadChatHistory, Storage.getItem, h2, hg]
      | json j =>
        cases j with
        | arr xs => simp [loadChatHistory, Storage.getItem, h2, hg, loadLoop_messages]
        | null => simp [loadChatHistory, Storage.getItem, h2, hg]
        | bool b => simp [loadChatHistory, Storage.getItem, h2, hg]
        | num n => simp [loadChatHistory, Storage.getItem, h2, hg]
        | str s => simp [loadChatHistory, Storage.getItem, h2, hg]
        | obj fs => simp [loadChatHistory, Storage.getItem, h2, hg]
  · have hd := congrArg String.data h
    simp only [historyKey, String.data_append] at hd
    exact String.ext (List.append_cancel_left hd)

/-- C2 counterexample: the slot key is not `history:<sessionId>` — saving
for session `abc` leaves `history:abc` empty and writes
`chat_history_abc` instead. -/
theorem history_slot_key_counterexample :
    (saveChatHistory (initialState "abc" emptyStorage)).storage.getItem
        "history:abc" = none
    ∧ ((saveChatHistory (initialState "abc" emptyStorage)).storage.getItem
        "chat_history_abc").isSome = true := by
  exact ⟨rfl, rfl⟩

/-- C8: the page's handlers re-invoke `connect` exactly on a
`visibilitychange` event that makes the page visible, or an `online`
event, and in each case only when not already connected; in particular a
transport failure (`connect_error`) leaves the widget disconnected and
triggers no automatic reconnect of its own. -/
theorem reconnect_policy :
    (∀ (ev : BrowserEvent) (st : AppState),
      (handleBrowserEvent st ev).2 = true ↔
        ((ev = BrowserEvent.visibilitychange false ∨ ev = BrowserEvent.online)
          ∧ st.isConnected = false))
    ∧ (∀ st : AppState,
        ((handleBrowserEvent st BrowserEvent.socketConnectError).1).isConnected = false
        ∧ (handleBrowserEvent st BrowserEvent.socketConnectError).2 = false) := by
  constructor
  · intro ev st
    cases ev with
    | visibilitychange hidden =>
      cases hidden <;> cases hc : st.isConnected <;> simp [handleBrowserEvent, hc]
    | online => cases hc : st.isConnected <;> simp [handleBrowserEvent, hc]
    | offline => simp [handleBrowserEvent]
    | socketConnect => simp [handleBrowserEvent]
    | socketDisconnect => simp [handleBrowserEvent]
    | socketConnectError => simp [handleBrowserEvent]
  · intro st
    exact ⟨rfl, rfl⟩

/-- C9 (amended): whenever `sendMessage` rejects a send — whitespace-only
input or disconnected — every piece of state other than the error toast
is unchanged: the input keeps its content (so the input is cleared only
by a successful send), no message is appended, storage is not written,
nothing is emitted, and the send button's disabled flag is unchanged (in
particular the button stays enabled when it was enabled). -/
theorem rejected_send_frame (st : AppState)
    (h : jsTrim st.messageInput = "" ∨ st.isConnected = false) :
    (sendMessage st).messageInput = st.messageInput
    ∧ (sendMessage st).messages = st.messages
    ∧ (sendMessage st).storage = st.storage
    ∧ (sendMessage st).emitted = st.emitted
    ∧ (sendMessage st).sendButtonDisabled = st.sendButtonDisabled
    ∧ (sendMessage st).isTyping = st.isTyping
    ∧ (sendMessage st).successMessage = st.successMessage := by
  have hres : sendMessage st = showError st "Please enter a message"
      ∨ sendMessage st = showError st "Not connected to server. Please wait..." := by
    by_cases hm : jsTrim st.messageInput = ""
    · left
      simp [sendMessage, hm]
    · right
      rcases h with h | h
      · exact absurd h hm
      · simp [sendMessage, hm, h]
  rcases hres with hres | hres <;> rw [hres] <;>
    exact ⟨rfl, rfl, rfl, rfl, rfl, rfl, rfl⟩

/-- Witness for C9 at a disconnected widget with pending input "hi". -/
theorem rejected_send_frame_witness :
    (jsTrim frameState.messageInput = "" ∨ frameState.isConnected = false)
    ∧ ((sendMessage frameState).messageInput = frameState.messageInput
       ∧ (sendMessage frameState).messages = frameState.messages
       ∧ (sendMessage frameState).storage = frameState.storage
       ∧ (sendMessage frameState).emitted = frameState.emitted
       ∧ (sendMessage frameState).sendButtonDisabled = frameState.sendButtonDisabled
       ∧ (sendMessage frameState).isTyping = frameState.isTyping
       ∧ (sendMessage frameState).successMessage = frameState.successMessage) :=
  ⟨Or.inr rfl, rejected_send_frame frameState (Or.inr rfl)⟩

/-- C9 counterexample: a send can be rejected while the send button is
disabled — the Enter key still invokes `sendMessage` during the
two-second window after a successful send — and the button then stays
disabled, so "the send button stays enabled" fails as stated. -/
theorem rejected_send_frame_counterexample :
    jsTrim disabledState.messageInput = ""
    ∧ (sendMessage disabledState).emitted = disabledState.emitted
    ∧ (sendMessage disabledState).sendButtonDisabled = true :=
  ⟨rfl, rfl, rfl⟩

/-- C10: `showTypingIndicator` and `hideTypingIndicator` are idempotent,
and after any sequence of such calls the `isTyping` flag is true exactly
when the indicator is displayed, provided flag and display agreed at the
start (as in the freshly constructed widget: not typing, indicator
hidden). -/
theorem typing_indicator_consistent :
    (∀ st : AppState,
      showTypingIndicator (showTypingIndicator st) = showTypingIndicator st
      ∧ hideTypingIndicator (hideTypingIndicator st) = hideTypingIndicator st)
    ∧ (∀ (st : AppState) (calls : List TypingCall),
        typingConsistent st → typingConsistent (applyTypingCalls st calls)) := by
  have hshow : ∀ st : AppState, typingConsistent st →
      typingConsistent (showTypingIndicator st) := by
    intro st hc
    by_cases ht : st.isTyping
    · simpa [showTypingIndicator, ht] using hc
    · simp [showTypingIndicator, ht, typingConsistent]
  have hhide : ∀ st : AppState, typingConsistent st →
      typingConsistent (hideTypingIndicator st) := by
    intro st hc
    by_cases ht : st.isTyping
    · simp [hideTypingIndicator, ht, typingConsistent]
    · simpa [hideTypingIndicator, ht] using hc
  have hseq : ∀ (calls : List TypingCall) (st : AppState),
      typingConsistent st → typingConsistent (applyTypingCalls st calls) := by
    intro calls
    induction calls with
    | nil => intro st hc; simpa [applyTypingCalls] using hc
    | cons c rest ih =>
      intro st hc
      cases c with
      | showInd =>
        simp only [applyTypingCalls]
        exact ih _ (hshow st hc)
      | hideInd =>
        simp only [applyTypingCalls]
        exact ih _ (hhide st hc)
  refine ⟨fun st => ⟨?_, ?_⟩, fun st calls hc => hseq calls st hc⟩
  · by_cases ht : st.isTyping <;> simp [showTypingIndicator, ht]
  · by_cases ht : st.isTyping <;> simp [hideTypingIndicator, ht]

end ChatWidget
